import Mathlib

/-!
Verification of the mcp-typescript server (src/unnamed/part_000 /
src/src/server.ts): a stdio MCP server exposing a `create-user` tool and
two resources (`users://all`, `users://{userId}/profile`) backed by a flat
JSON file of user records.

The embedding models the Node.js runtime state explicitly:
* `Env.fileUsers` is the parsed content of `./data/users.json` on disk
  (`none` when the file is missing or unparsable);
* `Env.cache` is the ES-module cache entry for
  `import('../data/users.json')`: Node caches a dynamic import after the
  first evaluation, so later imports return the same (mutable) array
  without touching the disk;
* `Env.writeFails` injects a durable-write failure for `fs.writeFile`.

Handlers are functions `... → Env → Except String Response × Env`; a
`.error` result is a rejection escaping the handler (an uncaught throw),
`.ok` is a normal response.
-/

/-- A user record as stored in `data/users.json`: keys `id` (number),
`name`, `email`, `address`, `phone` (strings). -/
structure User where
  id : Int
  name : String
  email : String
  address : String
  phone : String
deriving Repr, DecidableEq

/-- The validated input of the `create-user` tool: four required string
fields per the registered zod `inputSchema`. -/
structure UserInput where
  name : String
  email : String
  address : String
  phone : String
deriving Repr, DecidableEq

/-- The observable runtime state: the backing file, the ES-module cache
for `../data/users.json`, and a flag injecting `fs.writeFile` failure. -/
structure Env where
  fileUsers : Option (List User)
  cache : Option (List User)
  writeFails : Bool
deriving Repr, DecidableEq

/-- `await import('../data/users.json', { with: { type: 'json' } })`.
Node's ES-module loader evaluates the JSON file at most once per process:
the first import parses the file and caches the resulting array; every
later import returns the cached array unchanged. A missing or unparsable
file makes the import reject. -/
def importUsersJson (env : Env) : Except String (List User) × Env :=
  match env.cache with
  | some users => (.ok users, env)
  | none =>
    match env.fileUsers with
    | none => (.error "Cannot find module \x27../data/users.json\x27", env)
    | some users => (.ok users, { env with cache := some users })

/-- `createUser` (src/unnamed/part_000 lines 70-83): imports the users
array, computes `newUserId = users.length + 1`, pushes the new record onto
the (cached) array, writes the whole array back with `fs.writeFile`, and
returns the new id. Note the push mutates the module-cached array before
the write is attempted. -/
def createUser (user : UserInput) (env : Env) : Except String Int × Env :=
  match importUsersJson env with
  | (.error e, env1) => (.error e, env1)
  | (.ok users, env1) =>
    let newUserId : Int := users.length + 1
    let newRec : User :=
      { id := newUserId, name := user.name, email := user.email,
        address := user.address, phone := user.phone }
    let users1 := users ++ [newRec]
    let env2 := { env1 with cache := some users1 }
    if env2.writeFails then
      (.error "EACCES: permission denied", env2)
    else
      (.ok newUserId, { env2 with fileUsers := some users1 })

deriving instance DecidableEq for Except

/-- The `structuredContent` field of a `create-user` tool response:
`{ userId }` on success, `{ error: 'Error creating user' }` on failure. -/
inductive StructuredContent where
  | userId (id : Int)
  | error (msg : String)
deriving Repr, DecidableEq

/-- A `create-user` tool response: one text content item plus the
structured payload. -/
structure ToolResponse where
  contentText : String
  structuredContent : StructuredContent
deriving Repr, DecidableEq

/-- One entry of a resource response's `contents` array. -/
structure ResourceContent where
  uri : String
  text : String
  mimeType : Option String
deriving Repr, DecidableEq

/-- JSON.stringify escaping of one character inside a string literal:
backslash, double quote, and the common control characters. -/
def jsonEscapeChar (c : Char) : String :=
  if c = '\\' then "\\\\"
  else if c = '\"' then "\\\""
  else if c = '\n' then "\\n"
  else if c = '\r' then "\\r"
  else if c = '\t' then "\\t"
  else String.singleton c

/-- JSON.stringify of a string value (quoted, escaped). -/
def jsonQuote (s : String) : String :=
  "\"" ++ String.join (s.toList.map jsonEscapeChar) ++ "\""

/-- JSON.stringify of one user record, field order as in the object
literal `{ id, name, email, address, phone }`. -/
def jsonStringifyUser (u : User) : String :=
  "\x7b\"id\":" ++ toString u.id
    ++ ",\"name\":" ++ jsonQuote u.name
    ++ ",\"email\":" ++ jsonQuote u.email
    ++ ",\"address\":" ++ jsonQuote u.address
    ++ ",\"phone\":" ++ jsonQuote u.phone ++ "\x7d"

/-- JSON.stringify of the users array (compact form, as sent by the
`users://all` resource). -/
def jsonStringifyUsers (users : List User) : String :=
  "[" ++ String.intercalate "," (users.map jsonStringifyUser) ++ "]"

/-- The `create-user` tool handler (src/unnamed/part_000 lines 42-66):
`try { const userId = await createUser(props); return success } catch
(error) { return error response }`. Because of the catch, the handler
never rejects: both branches return a normal response (`.ok`). -/
def createUserHandler (props : UserInput) (env : Env) :
    Except String ToolResponse × Env :=
  match createUser props env with
  | (.ok userId, env1) =>
    (.ok { contentText := "\x7b\"userId\":" ++ toString userId ++ "\x7d",
           structuredContent := .userId userId }, env1)
  | (.error e, env1) =>
    (.ok { contentText := "Error creating user: " ++ e,
           structuredContent := .error "Error creating user" }, env1)

/-- The `users://all` resource handler (src/unnamed/part_000 lines
94-107): imports the users array and returns it JSON-serialized. There is
no try/catch: if the import rejects, the rejection escapes the handler. -/
def usersResourceHandler (uri : String) (env : Env) :
    Except String (List ResourceContent) × Env :=
  match importUsersJson env with
  | (.error e, env1) => (.error e, env1)
  | (.ok users, env1) =>
    (.ok [{ uri := uri, text := jsonStringifyUsers users,
            mimeType := some "application/json" }], env1)

/-- JavaScript string whitespace accepted (and trimmed) by `Number()`. -/
def isJsWhitespace (c : Char) : Bool :=
  c = ' ' || c = '\t' || c = '\n' || c = '\r' ||
  c = (Char.ofNat 11) || c = (Char.ofNat 12) || c = (Char.ofNat 0xa0)

/-- Numeric value of one digit in base 2, 8, 10 or 16, when valid. -/
def digitVal (c : Char) : Option Nat :=
  if '0' ≤ c ∧ c ≤ '9' then some (c.toNat - '0'.toNat)
  else if 'a' ≤ c ∧ c ≤ 'f' then some (c.toNat - 'a'.toNat + 10)
  else if 'A' ≤ c ∧ c ≤ 'F' then some (c.toNat - 'A'.toNat + 10)
  else none

/-- Value of a digit string in the given base, `none` if empty or if any
character is not a digit of that base. -/
def digitsVal (base : Nat) (cs : List Char) : Option Nat :=
  if cs.isEmpty then none
  else
    cs.foldl
      (fun acc c =>
        match acc, digitVal c with
        | some n, some d => if d < base then some (n * base + d) else none
        | _, _ => none)
      (some 0)

/-- The exact rational value `sign * mantissa * 10 ^ exp10` as an integer,
`none` when it is not an integer. -/
def decValue (neg : Bool) (mantissa : Nat) (exp10 : Int) : Option Int :=
  let sign : Int := if neg then -1 else 1
  if 0 ≤ exp10 then
    some (sign * mantissa * (10 : Int) ^ exp10.toNat)
  else
    let d := (10 : Nat) ^ (-exp10).toNat
    if mantissa % d = 0 then some (sign * (mantissa / d)) else none

/-- A signed decimal literal `[+|-] digits [. digits] [e|E [+|-] digits]`
as understood by JS `Number()`, restricted to integer values: `none` when
the text is not a valid decimal literal or its value is not an integer. -/
def jsDecimal (cs : List Char) : Option Int :=
  let (neg, cs1) :=
    match cs with
    | '-' :: rest => (true, rest)
    | '+' :: rest => (false, rest)
    | _ => (false, cs)
  let intPart := cs1.takeWhile Char.isDigit
  let cs2 := cs1.dropWhile Char.isDigit
  let (fracPart, cs3) :=
    match cs2 with
    | '.' :: rest => (rest.takeWhile Char.isDigit, rest.dropWhile Char.isDigit)
    | _ => ([], cs2)
  let expOpt : Option Int :=
    match cs3 with
    | [] => some 0
    | 'e' :: rest => jsExponent rest
    | 'E' :: rest => jsExponent rest
    | _ => none
  match expOpt with
  | none => none
  | some e =>
    if intPart.isEmpty ∧ fracPart.isEmpty then none
    else
      match digitsVal 10 (intPart ++ fracPart) with
      | none => none
      | some m => decValue neg m (e - fracPart.length)
where
  /-- The exponent after `e`/`E`: an optional sign and digits. -/
  jsExponent (cs : List Char) : Option Int :=
    let (eneg, cs1) :=
      match cs with
      | '-' :: rest => (true, rest)
      | '+' :: rest => (false, rest)
      | _ => (false, cs)
    if cs1.isEmpty ∨ ¬ cs1.all Char.isDigit then none
    else (digitsVal 10 cs1).map (fun n => if eneg then -(n : Int) else n)

/-- JS `Number(s)` for a string `s`, restricted to integer results:
`some n` when the coercion yields the integer `n`, `none` when it yields
`NaN`, an infinity, or a non-integer number (none of which can be
strictly equal to an integer record id). Covers trimmed whitespace, the
empty string (value 0), radix-prefixed literals (`0x`, `0o`, `0b`), and
signed decimal literals with fraction and exponent. -/
def jsNumber (s : String) : Option Int :=
  let cs := (s.toList.dropWhile isJsWhitespace).reverse
  let cs := (cs.dropWhile isJsWhitespace).reverse
  match cs with
  | [] => some 0
  | '0' :: 'x' :: rest => (digitsVal 16 rest).map Int.ofNat
  | '0' :: 'X' :: rest => (digitsVal 16 rest).map Int.ofNat
  | '0' :: 'o' :: rest => (digitsVal 8 rest).map Int.ofNat
  | '0' :: 'O' :: rest => (digitsVal 8 rest).map Int.ofNat
  | '0' :: 'b' :: rest => (digitsVal 2 rest).map Int.ofNat
  | '0' :: 'B' :: rest => (digitsVal 2 rest).map Int.ofNat
  | _ => jsDecimal cs

/-- The `users://{userId}/profile` resource handler (src/unnamed/part_000
lines 111-141): imports the users array, looks up
`users.find((u) => u.id === Number(userId))`, and answers with the record
as JSON or the text `User not found`. No try/catch: an import rejection
escapes the handler. -/
def userProfileHandler (uri : String) (userId : String) (env : Env) :
    Except String (List ResourceContent) × Env :=
  match importUsersJson env with
  | (.error e, env1) => (.error e, env1)
  | (.ok users, env1) =>
    match users.find? (fun u => some u.id == jsNumber userId) with
    | none =>
      (.ok [{ uri := uri, text := "User not found",
              mimeType := some "text/plain" }], env1)
    | some user =>
      (.ok [{ uri := uri, text := jsonStringifyUser user,
              mimeType := some "application/json" }], env1)

/-- Raw, unvalidated tool-call arguments: each of the four schema fields
either present as a string or missing. -/
structure RawInput where
  name : Option String
  email : Option String
  address : Option String
  phone : Option String
deriving Repr, DecidableEq

/-- Outcome of invoking the `create-user` tool through the server:
either the arguments were rejected by schema validation (handler never
ran), or the handler ran and produced a response, or the handler threw
(which `create-user` never does, thanks to its catch). -/
inductive ToolCallResult where
  | invalidArgs
  | response (r : ToolResponse)
  | thrown (msg : String)
deriving Repr, DecidableEq

/-- Modelled from the spec: the MCP server validates tool arguments
against the registered zod `inputSchema` (four required string fields
`name`, `email`, `address`, `phone`, src/unnamed/part_000 lines 34-39)
before invoking the handler; a call with a missing required field is
rejected and the handler does not run. The validation step itself lives
in the MCP SDK / zod, outside this repository's sources. -/
def callCreateUserTool (args : RawInput) (env : Env) :
    ToolCallResult × Env :=
  match args.name, args.email, args.address, args.phone with
  | some n, some e, some a, some p =>
    match createUserHandler { name := n, email := e, address := a,
                              phone := p } env with
    | (.ok r, env1) => (.response r, env1)
    | (.error m, env1) => (.thrown m, env1)
  | _, _, _, _ => (.invalidArgs, env)

/-- The module cache is consistent with a file content `users`: either
nothing is cached yet (fresh process) or the cached array equals the file
content. -/
def cacheConsistent (env : Env) (users : List User) : Prop :=
  env.cache = none ∨ env.cache = some users

instance (env : Env) (users : List User) :
    Decidable (cacheConsistent env users) := by
  unfold cacheConsistent; infer_instance

/-- The record ids are exactly `1, 2, ..., length`, in insertion order. -/
def idsSequential (users : List User) : Prop :=
  users.map User.id = (List.range' 1 users.length).map Int.ofNat

instance (users : List User) : Decidable (idsSequential users) := by
  unfold idsSequential; infer_instance

/-- C1: for every valid create-user input and every starting record
collection (a state whose module cache is absent or in sync with the
backing file), a successful `createUser` call returns a userId equal to
the record count before the call plus one, and the persisted collection
afterwards has exactly one more record than before. -/
theorem createUser_userId_and_growth (input : UserInput) (env : Env)
    (users : List User) (hf : env.fileUsers = some users)
    (hc : cacheConsistent env users) (hw : env.writeFails = false) :
    (createUser input env).1 = .ok ((users.length : Int) + 1) ∧
    ∃ users1, ((createUser input env).2).fileUsers = some users1 ∧
      users1.length = users.length + 1 := by
  rcases hc with hc | hc <;>
    simp [createUser, importUsersJson, hc, hf, hw]

/-- C1 witness: starting from the empty collection in a fresh process,
creating a user returns userId 1 and the file then has one record. -/
theorem createUser_userId_and_growth_witness :
    (createUser ⟨"A", "a@x.com", "1 St", "555"⟩
        ⟨some [], none, false⟩).1 = .ok ((([] : List User).length : Int) + 1) ∧
    ∃ users1,
      ((createUser ⟨"A", "a@x.com", "1 St", "555"⟩
          ⟨some [], none, false⟩).2).fileUsers = some users1 ∧
      users1.length = ([] : List User).length + 1 :=
  createUser_userId_and_growth ⟨"A", "a@x.com", "1 St", "555"⟩
    ⟨some [], none, false⟩ [] rfl (Or.inl rfl) rfl

/-- C2 counterexample: with the backing file missing, the `users://all`
resource handler does not convert the failure into a non-exceptional
response — the import rejection escapes the handler (there is no
try/catch in it), contradicting the claim that every handler catches
failures at its boundary. -/
theorem users_resource_failure_escapes_handler :
    ((usersResourceHandler "users://all" ⟨none, none, false⟩).1).isOk = false :=
  rfl

/-- C2 amended: the create-user tool handler catches every failure and
always returns a normal response, but the two resource handlers do not
catch: a storage failure (missing backing file) escapes the
users-profile resource handler as an exceptional result. -/
theorem handler_failure_propagation_amended :
    (∀ props env, ∃ r, (createUserHandler props env).1 = Except.ok r) ∧
    ((userProfileHandler "users://1/profile" "1"
        ⟨none, none, false⟩).1).isOk = false := by
  constructor
  · intro props env
    unfold createUserHandler
    rcases h : createUser props env with ⟨r, env1⟩
    cases r <;> exact ⟨_, rfl⟩
  · rfl

/-- C3: `import('../data/users.json')` is served from the ES-module cache
after the first request, so an operation does not re-read the backing
file. Failing scenario evaluated on the model: serve `users://all` once
(file holds one record), then edit the file externally to the empty
collection; the second `users://all` response still shows the original
record — the in-memory copy survived and the external edit is invisible,
contrary to the no-caching claim. -/
theorem list_all_serves_stale_cache :
    (usersResourceHandler "users://all"
        { (usersResourceHandler "users://all"
            ⟨some [⟨1, "A", "a@x.com", "1 St", "555"⟩], none, false⟩).2 with
          fileUsers := some [] }).1 =
      (usersResourceHandler "users://all"
        ⟨some [⟨1, "A", "a@x.com", "1 St", "555"⟩], none, false⟩).1 ∧
    (usersResourceHandler "users://all"
        { (usersResourceHandler "users://all"
            ⟨some [⟨1, "A", "a@x.com", "1 St", "555"⟩], none, false⟩).2 with
          fileUsers := some [] }).1 ≠
      .ok [{ uri := "users://all", text := jsonStringifyUsers [],
             mimeType := some "application/json" }] := by
  refine ⟨rfl, ?_⟩
  decide

/-- C4: there is a collection with all-distinct ids such that after
removing one record (an external edit of the file), a successful create
assigns `count + 1` as the new id, which already belongs to a remaining
record: witness ids `[1, 2]`, remove the record with id 1, and the next
create assigns id `1 + 1 = 2`, a duplicate. -/
theorem createUser_duplicate_id_after_deletion :
    ∃ (users : List User) (removed : User) (input : UserInput) (newId : Int),
      (users.map User.id).Nodup ∧ removed ∈ users ∧
      (createUser input ⟨some (users.erase removed), none, false⟩).1 =
        .ok newId ∧
      newId ∈ (users.erase removed).map User.id := by
  refine ⟨[⟨1, "A", "a", "1", "5"⟩, ⟨2, "B", "b", "2", "6"⟩],
    ⟨1, "A", "a", "1", "5"⟩, ⟨"C", "c", "3", "7"⟩, 2, ?_, ?_, ?_, ?_⟩
  · decide
  · decide
  · rfl
  · decide

/-- C5: whenever the underlying `createUser` step fails (storage
unavailable or write failure), the create-user tool handler returns a
normal response whose structured payload is exactly
`{ error: 'Error creating user' }` and whose text is
`Error creating user: ` followed by the underlying failure message; the
handler never rejects. -/
theorem createUserHandler_error_response (props : UserInput) (env : Env)
    (msg : String) (h : (createUser props env).1 = .error msg) :
    (createUserHandler props env).1 =
      .ok { contentText := "Error creating user: " ++ msg,
            structuredContent := .error "Error creating user" } := by
  unfold createUserHandler
  rcases hc : createUser props env with ⟨r, env1⟩
  rw [hc] at h
  simp only at h
  subst h
  rfl

/-- C5 witness: with the backing file missing, the handler returns the
structured error payload with the import failure message embedded. -/
theorem createUserHandler_error_response_witness :
    (createUserHandler ⟨"A", "a@x.com", "1 St", "555"⟩
        ⟨none, none, false⟩).1 =
      .ok { contentText := "Error creating user: "
              ++ "Cannot find module \x27../data/users.json\x27",
            structuredContent := .error "Error creating user" } :=
  createUserHandler_error_response ⟨"A", "a@x.com", "1 St", "555"⟩
    ⟨none, none, false⟩ "Cannot find module \x27../data/users.json\x27" rfl

/-- C6: the `userId` path parameter is coerced with `Number()` and
compared against record ids. If some record's id equals the coerced
value, the handler returns a matching record JSON-serialized as
`application/json`; if no record matches, it returns the literal text
`User not found` as `text/plain`, as a normal response. Stated in a
fresh-process state observing the file content `users`. -/
theorem userProfileHandler_lookup (uri userId : String)
    (users : List User) (env : Env) (hf : env.fileUsers = some users)
    (hc : env.cache = none) :
    ((∃ u ∈ users, some u.id = jsNumber userId) →
      ∃ u ∈ users, some u.id = jsNumber userId ∧
        (userProfileHandler uri userId env).1 =
          .ok [{ uri := uri, text := jsonStringifyUser u,
                 mimeType := some "application/json" }]) ∧
    ((∀ u ∈ users, some u.id ≠ jsNumber userId) →
      (userProfileHandler uri userId env).1 =
        .ok [{ uri := uri, text := "User not found",
               mimeType := some "text/plain" }]) := by
  constructor
  · rintro ⟨u0, hu0, hid0⟩
    rcases hfind : users.find? (fun u => some u.id == jsNumber userId)
      with _ | u
    · rw [List.find?_eq_none] at hfind
      exact absurd hid0 (by simpa using hfind u0 hu0)
    · refine ⟨u, List.mem_of_find?_eq_some hfind,
        by simpa using List.find?_some hfind, ?_⟩
      simp [userProfileHandler, importUsersJson, hc, hf, hfind]
  · intro hall
    have hfind : users.find? (fun u => some u.id == jsNumber userId)
        = none := by
      rw [List.find?_eq_none]
      intro u hu
      simpa using hall u hu
    simp [userProfileHandler, importUsersJson, hc, hf, hfind]

/-- C6 witness: with one stored record of id 1, the lookup dichotomy is
established for the parameter string `1` in a fresh state. -/
theorem userProfileHandler_lookup_witness :
    ((∃ u ∈ ([⟨1, "A", "a@x.com", "1 St", "555"⟩] : List User),
        some u.id = jsNumber "1") →
      ∃ u ∈ ([⟨1, "A", "a@x.com", "1 St", "555"⟩] : List User),
        some u.id = jsNumber "1" ∧
        (userProfileHandler "users://1/profile" "1"
            ⟨some [⟨1, "A", "a@x.com", "1 St", "555"⟩], none, false⟩).1 =
          .ok [{ uri := "users://1/profile", text := jsonStringifyUser u,
                 mimeType := some "application/json" }]) ∧
    ((∀ u ∈ ([⟨1, "A", "a@x.com", "1 St", "555"⟩] : List User),
        some u.id ≠ jsNumber "1") →
      (userProfileHandler "users://1/profile" "1"
          ⟨some [⟨1, "A", "a@x.com", "1 St", "555"⟩], none, false⟩).1 =
        .ok [{ uri := "users://1/profile", text := "User not found",
               mimeType := some "text/plain" }]) :=
  userProfileHandler_lookup "users://1/profile" "1"
    [⟨1, "A", "a@x.com", "1 St", "555"⟩]
    ⟨some [⟨1, "A", "a@x.com", "1 St", "555"⟩], none, false⟩ rfl rfl

/-- C8: for every `userId` path string whose `Number()` coercion matches
no stored record id — including non-numeral strings, whose coercion is
`NaN` and equals nothing — the profile handler is total: it returns the
normal `User not found` `text/plain` response and does not throw.
Stated in a fresh-process state observing the file content `users`. -/
theorem userProfileHandler_total_not_found (uri userId : String)
    (users : List User) (env : Env) (hf : env.fileUsers = some users)
    (hc : env.cache = none)
    (h : ∀ u ∈ users, jsNumber userId ≠ some u.id) :
    (userProfileHandler uri userId env).1 =
      .ok [{ uri := uri, text := "User not found",
             mimeType := some "text/plain" }] := by
  have hfind : users.find? (fun u => some u.id == jsNumber userId)
      = none := by
    rw [List.find?_eq_none]
    intro u hu
    simpa using fun heq => h u hu heq.symm
  simp [userProfileHandler, importUsersJson, hc, hf, hfind]

/-- C8 witness: the non-numeral parameter string `abc` coerces to `NaN`,
matches no record, and yields the not-found response without a throw. -/
theorem userProfileHandler_total_not_found_witness :
    (userProfileHandler "users://abc/profile" "abc"
        ⟨some [⟨1, "A", "a@x.com", "1 St", "555"⟩], none, false⟩).1 =
      .ok [{ uri := "users://abc/profile", text := "User not found",
             mimeType := some "text/plain" }] :=
  userProfileHandler_total_not_found "users://abc/profile" "abc"
    [⟨1, "A", "a@x.com", "1 St", "555"⟩]
    ⟨some [⟨1, "A", "a@x.com", "1 St", "555"⟩], none, false⟩ rfl rfl
    (by decide)

/-- C7: a create-user call missing at least one of the four required
string fields is rejected by schema validation before the handler runs:
the runtime state — in particular the persisted collection — is exactly
the state before the call. -/
theorem invalid_args_leave_state_unchanged (args : RawInput) (env : Env)
    (h : args.name = none ∨ args.email = none ∨ args.address = none ∨
      args.phone = none) :
    (callCreateUserTool args env).1 = .invalidArgs ∧
    (callCreateUserTool args env).2 = env := by
  rcases args with ⟨n, e, a, p⟩
  cases n <;> cases e <;> cases a <;> cases p
  all_goals simp_all [callCreateUserTool]

/-- C7 witness: a call missing the `name` field is rejected and leaves a
one-record state untouched. -/
theorem invalid_args_leave_state_unchanged_witness :
    (callCreateUserTool ⟨none, some "a@x.com", some "1 St", some "555"⟩
        ⟨some [⟨1, "A", "a@x.com", "1 St", "555"⟩], none, false⟩).1 =
      .invalidArgs ∧
    (callCreateUserTool ⟨none, some "a@x.com", some "1 St", some "555"⟩
        ⟨some [⟨1, "A", "a@x.com", "1 St", "555"⟩], none, false⟩).2 =
      ⟨some [⟨1, "A", "a@x.com", "1 St", "555"⟩], none, false⟩ :=
  invalid_args_leave_state_unchanged
    ⟨none, some "a@x.com", some "1 St", some "555"⟩
    ⟨some [⟨1, "A", "a@x.com", "1 St", "555"⟩], none, false⟩ (Or.inl rfl)

/-- C9: the userId returned by a successful create depends only on the
runtime state (the stored collection / cache), never on the input's
field values: two invocations from the same state return the same id. -/
theorem createUser_id_independent_of_input (env : Env)
    (input1 input2 : UserInput) (id : Int)
    (h : (createUser input1 env).1 = .ok id) :
    (createUser input2 env).1 = .ok id := by
  have hkey : ∀ input : UserInput, (createUser input env).1 =
      (createUser input1 env).1 := by
    intro input
    rcases env with ⟨f, c, w⟩
    cases c <;> cases f <;> cases w <;>
      simp [createUser, importUsersJson]
  rw [hkey input2, h]

/-- C9 witness: from the empty-collection state, two inputs with all
fields different both receive userId 1. -/
theorem createUser_id_independent_of_input_witness :
    (createUser ⟨"B", "b@y.org", "2 Av", "777"⟩
        ⟨some [], none, false⟩).1 = .ok 1 :=
  createUser_id_independent_of_input ⟨some [], none, false⟩
    ⟨"A", "a@x.com", "1 St", "555"⟩ ⟨"B", "b@y.org", "2 Av", "777"⟩ 1 rfl

/-- C10: the invariant "record ids are exactly 1..n in insertion order"
is preserved by every successful create from a consistent state: the
persisted collection afterwards satisfies it with length n + 1, and its
ids are therefore pairwise distinct. -/
theorem createUser_preserves_sequential_ids (input : UserInput) (env : Env)
    (users : List User) (hf : env.fileUsers = some users)
    (hc : cacheConsistent env users) (hw : env.writeFails = false)
    (hid : idsSequential users) :
    ∃ users1, ((createUser input env).2).fileUsers = some users1 ∧
      users1.length = users.length + 1 ∧ idsSequential users1 ∧
      (users1.map User.id).Nodup := by
  have hfile : ((createUser input env).2).fileUsers =
      some (users ++ [⟨(users.length : Int) + 1, input.name, input.email,
        input.address, input.phone⟩]) := by
    rcases hc with hc | hc <;> simp [createUser, importUsersJson, hc, hf, hw]
  have hseq : idsSequential (users ++ [⟨(users.length : Int) + 1,
      input.name, input.email, input.address, input.phone⟩]) := by
    unfold idsSequential at hid ⊢
    simp [List.range'_concat, hid]
    omega
  refine ⟨_, hfile, by simp, hseq, ?_⟩
  rw [hseq]
  exact (List.nodup_range' _ _).map Int.ofNat_injective

/-- C10 witness: from the empty collection (which trivially satisfies
the invariant), the state after one create satisfies it with length 1. -/
theorem createUser_preserves_sequential_ids_witness :
    ∃ users1,
      ((createUser ⟨"A", "a@x.com", "1 St", "555"⟩
          ⟨some [], none, false⟩).2).fileUsers = some users1 ∧
      users1.length = ([] : List User).length + 1 ∧
      idsSequential users1 ∧ (users1.map User.id).Nodup :=
  createUser_preserves_sequential_ids ⟨"A", "a@x.com", "1 St", "555"⟩
    ⟨some [], none, false⟩ [] rfl (Or.inl rfl) rfl (by decide)
